import Mathlib

/-!
Shallow embedding of the trading-signal core (pages/api market-signal handler):
indicator library (SMA, RSI, momentum), signal generator, signal combiner and
recommendation formatter.  JS numbers are modelled as rationals; `Math.round`
is `jsRound` (floor of x + 1/2, which is what JS `Math.round` computes); a JS
comparison against `undefined` (a missing array element) is `false`, modelled
by the `jsGT`/`jsLT` helpers on `Option`.
-/

/-- One OHLCV bar, from the `MarketDataPoint` interface.  The source field
`open` is a Lean keyword, so it is called `openPrice` here. -/
structure Bar where
  timestamp : Int
  openPrice : ℚ
  high : ℚ
  low : ℚ
  close : ℚ
  volume : ℚ
deriving DecidableEq, Repr

/-- The direction union type of `TradingSignal.signal`. -/
inductive SignalDir where
  | BUY
  | SELL
  | HOLD
deriving DecidableEq, Repr

/-- The nested `indicators` record of a `TradingSignal`. -/
structure IndicatorSet where
  sma20 : ℚ
  sma50 : ℚ
  rsi : ℚ
  momentum : ℚ
deriving DecidableEq, Repr

/-- The `TradingSignal` interface. -/
structure TradingSignal where
  timeframe : String
  signal : SignalDir
  strength : ℚ
  indicators : IndicatorSet
deriving DecidableEq, Repr

/-- JS `Math.round`: round half toward positive infinity, i.e. `⌊x + 1/2⌋`. -/
def jsRound (x : ℚ) : Int :=
  Int.floor (x + 1 / 2)

/-- `Math.round(x * 100) / 100`: the 2-decimal rounding applied to indicators. -/
def round2 (x : ℚ) : ℚ :=
  (jsRound (x * 100) : ℚ) / 100

/-- JS `a > b` where `a` may be `undefined` (comparison with undefined is false). -/
def jsGT (a : Option ℚ) (b : ℚ) : Bool :=
  match a with
  | some x => decide (x > b)
  | none => false

/-- JS `a < b` where `a` may be `undefined` (comparison with undefined is false). -/
def jsLT (a : Option ℚ) (b : ℚ) : Bool :=
  match a with
  | some x => decide (x < b)
  | none => false

/-- `calculateSMA(data, period)`: if fewer than `period` points, return the last
element (`data[data.length - 1] || 0`, i.e. 0 on the empty series); otherwise
the mean of the last `period` elements (`data.slice(-period)`). -/
def calculateSMA (data : List ℚ) (period : Nat) : ℚ :=
  if data.length < period then (data.getLast?).getD 0
  else ((data.drop (data.length - period)).foldl (· + ·) 0) / (period : ℚ)

/-- `calculateRSI(prices, period)`: below `period + 1` points return 50; else
average gains and losses over the last `period` consecutive differences; if
`avgLoss == 0` return 100, else `100 - 100 / (1 + avgGain / avgLoss)`. -/
def calculateRSI (prices : List ℚ) (period : Nat) : ℚ :=
  if prices.length < period + 1 then 50
  else
    let changes := (prices.zip prices.tail).map (fun p => p.2 - p.1)
    let lastChanges := changes.drop (changes.length - period)
    let gains := lastChanges.map (fun c => if c > 0 then c else 0)
    let losses := lastChanges.map (fun c => if c < 0 then -c else 0)
    let avgGain := (gains.foldl (· + ·) 0) / (period : ℚ)
    let avgLoss := (losses.foldl (· + ·) 0) / (period : ℚ)
    if avgLoss = 0 then 100
    else 100 - (100 / (1 + avgGain / avgLoss))

/-- `calculateMomentum(prices, period)`: 0 below `period` points, otherwise
`((prices[len - 1] - prices[len - period]) / prices[len - period]) * 100`. -/
def calculateMomentum (prices : List ℚ) (period : Nat) : ℚ :=
  if prices.length < period then 0
  else
    ((prices.getD (prices.length - 1) 0 - prices.getD (prices.length - period) 0)
      / prices.getD (prices.length - period) 0) * 100

/-- `generateSignal(data, timeframe)`: compute the four indicators over the
closes, classify BUY/SELL/HOLD against the latest close, and return the signal
with 2-decimal-rounded indicators.  `closes[closes.length - 1]` on the empty
series is `undefined` in JS, so both comparisons are false there. -/
def generateSignal (data : List Bar) (timeframe : String) : TradingSignal :=
  let closes := data.map Bar.close
  let sma20 := calculateSMA closes 20
  let sma50 := calculateSMA closes 50
  let rsi := calculateRSI closes 14
  let momentum := calculateMomentum closes 10
  let currentPrice := closes.getLast?
  let isBuy := jsGT currentPrice sma20 && decide (sma20 > sma50) &&
    decide (rsi < 70) && decide (momentum > 0)
  let isSell := jsLT currentPrice sma20 && decide (sma20 < sma50) &&
    decide (rsi > 30) && decide (momentum < 0)
  let signal := if isBuy then SignalDir.BUY
    else if isSell then SignalDir.SELL else SignalDir.HOLD
  let strength : ℚ :=
    if isBuy then
      min 100 ((if rsi < 30 then (90 : ℚ) else 70) + (if momentum > 5 then (20 : ℚ) else 10))
    else if isSell then
      min 100 ((if rsi > 70 then (90 : ℚ) else 70) + (if momentum < -5 then (20 : ℚ) else 10))
    else 40
  { timeframe := timeframe, signal := signal, strength := strength,
    indicators :=
      { sma20 := round2 sma20, sma50 := round2 sma50,
        rsi := round2 rsi, momentum := round2 momentum } }

/-- `combineSignals(dailySignal, intradaySignal)`: weighted strength
(0.6 daily + 0.4 intraday, rounded), direction by the agreement/priority
chain, timeframe fixed to "combined", indicators copied from the daily input. -/
def combineSignals (dailySignal intradaySignal : TradingSignal) : TradingSignal :=
  let dailyWeight : ℚ := 6 / 10
  let intradayWeight : ℚ := 4 / 10
  let combinedStrength :=
    dailySignal.strength * dailyWeight + intradaySignal.strength * intradayWeight
  let signal :=
    if dailySignal.signal = intradaySignal.signal then dailySignal.signal
    else if dailySignal.signal = SignalDir.BUY ∧ intradaySignal.signal ≠ SignalDir.SELL then
      SignalDir.BUY
    else if dailySignal.signal = SignalDir.SELL ∧ intradaySignal.signal ≠ SignalDir.BUY then
      SignalDir.SELL
    else SignalDir.HOLD
  { timeframe := "combined", signal := signal,
    strength := (jsRound combinedStrength : ℚ),
    indicators := dailySignal.indicators }

/-- String form of a direction, as it appears inside the template literals. -/
def dirString : SignalDir → String
  | SignalDir.BUY => "BUY"
  | SignalDir.SELL => "SELL"
  | SignalDir.HOLD => "HOLD"

/-- JS number-to-string as it occurs in the handler's template literals; the
strengths interpolated there are integer-valued, printed without a fraction. -/
def qString (q : ℚ) : String :=
  if q.den = 1 then toString q.num
  else toString q.num ++ "/" ++ toString q.den

/-- The recommendation-building block of the API `handler` (the template
literals selected on `combinedSignal.signal`), lines 192-199 of the source. -/
def formatRecommendation (dailySignal intradaySignal combinedSignal : TradingSignal) : String :=
  if combinedSignal.signal = SignalDir.BUY then
    "Strong " ++ (if combinedSignal.strength > 80 then "BUY" else "Moderate BUY") ++
      " signal. Daily trend is " ++ dirString dailySignal.signal ++ " with " ++
      qString dailySignal.strength ++ "% confidence. 15-min trend shows " ++
      dirString intradaySignal.signal ++ " with " ++ qString intradaySignal.strength ++
      "% confidence."
  else if combinedSignal.signal = SignalDir.SELL then
    "Strong " ++ (if combinedSignal.strength > 80 then "SELL" else "Moderate SELL") ++
      " signal. Daily trend is " ++ dirString dailySignal.signal ++ " with " ++
      qString dailySignal.strength ++ "% confidence. 15-min trend shows " ++
      dirString intradaySignal.signal ++ " with " ++ qString intradaySignal.strength ++
      "% confidence."
  else
    "HOLD position. Market conditions are mixed. Daily: " ++
      dirString dailySignal.signal ++ " (" ++ qString dailySignal.strength ++
      "%), 15-min: " ++ dirString intradaySignal.signal ++ " (" ++
      qString intradaySignal.strength ++ "%). Wait for clearer signals."

/-- A bar whose four prices are all `c`, for concrete test inputs. -/
def mkBar (c : ℚ) : Bar :=
  { timestamp := 0, openPrice := c, high := c, low := c, close := c, volume := 0 }

/-- Concrete daily BUY signal of strength 80 used as a test input. -/
def dailyBuy80 : TradingSignal :=
  { timeframe := "daily", signal := SignalDir.BUY, strength := 80,
    indicators := { sma20 := 0, sma50 := 0, rsi := 0, momentum := 0 } }

/-- Concrete intraday BUY signal of strength 80 used as a test input. -/
def intradayBuy80 : TradingSignal :=
  { timeframe := "15min", signal := SignalDir.BUY, strength := 80,
    indicators := { sma20 := 0, sma50 := 0, rsi := 0, momentum := 0 } }

/-- Concrete intraday HOLD signal of strength 40 used as a test input. -/
def intradayHold40 : TradingSignal :=
  { timeframe := "15min", signal := SignalDir.HOLD, strength := 40,
    indicators := { sma20 := 0, sma50 := 0, rsi := 0, momentum := 0 } }

/-- Folding addition over a constant list sums `n` copies. -/
lemma foldl_add_replicate (n : Nat) (c a : ℚ) :
    (List.replicate n c).foldl (· + ·) a = a + n * c := by
  induction n generalizing a with
  | zero => simp
  | succ k ih =>
    rw [List.replicate_succ, List.foldl_cons, ih]
    push_cast
    ring

/-- The possible strengths out of `generateSignal`: 40 on the HOLD branch, and
`min 100` of 70/90 plus 10/20 on the BUY and SELL branches. -/
lemma generateSignal_strength_cases (data : List Bar) (tf : String) :
    (generateSignal data tf).strength = 40 ∨ (generateSignal data tf).strength = 80 ∨
    (generateSignal data tf).strength = 90 ∨ (generateSignal data tf).strength = 100 := by
  simp only [generateSignal]
  split_ifs <;> norm_num [min_def]

/-- C10: on the empty Bar series the Signal Generator completes without error
and returns HOLD with strength 40 and indicators sma20 = 0, sma50 = 0,
rsi = 50, momentum = 0: the missing latest close makes both the BUY and SELL
comparisons false, so nothing is rejected at this boundary. -/
theorem generateSignal_empty_fallback (tf : String) :
    generateSignal [] tf =
      { timeframe := tf, signal := SignalDir.HOLD, strength := 40,
        indicators := { sma20 := 0, sma50 := 0, rsi := 50, momentum := 0 } } := by
  norm_num [generateSignal, calculateSMA, calculateRSI, calculateMomentum,
    jsGT, jsLT, round2, jsRound]

/-- C7: the Combiner's strength is `round(0.6 * daily + 0.4 * intraday)`, its
timeframe is the fixed label "combined", and its indicators are copied
verbatim from the daily input Signal. -/
theorem combineSignals_strength_timeframe_indicators (d i : TradingSignal) :
    (combineSignals d i).strength = (jsRound (d.strength * (6 / 10) + i.strength * (4 / 10)) : ℚ) ∧
    (combineSignals d i).timeframe = "combined" ∧
    (combineSignals d i).indicators = d.indicators :=
  ⟨rfl, rfl, rfl⟩

/-- C6: the Combiner's direction is the shared direction on agreement, BUY when
daily = BUY and intraday is not SELL, SELL when daily = SELL and intraday is
not BUY, and HOLD in every other disagreement pattern. -/
theorem combineSignals_direction_rule (d i : TradingSignal) :
    (d.signal = i.signal → (combineSignals d i).signal = d.signal) ∧
    (d.signal = SignalDir.BUY → i.signal ≠ SignalDir.SELL →
      (combineSignals d i).signal = SignalDir.BUY) ∧
    (d.signal = SignalDir.SELL → i.signal ≠ SignalDir.BUY →
      (combineSignals d i).signal = SignalDir.SELL) ∧
    (d.signal ≠ i.signal →
      ¬(d.signal = SignalDir.BUY ∧ i.signal ≠ SignalDir.SELL) →
      ¬(d.signal = SignalDir.SELL ∧ i.signal ≠ SignalDir.BUY) →
      (combineSignals d i).signal = SignalDir.HOLD) := by
  cases hd : d.signal <;> cases hi : i.signal <;> simp [combineSignals, hd, hi]

/-- Witness for C6: daily BUY with intraday HOLD combines to BUY. -/
theorem combineSignals_direction_rule_witness :
    (combineSignals dailyBuy80 intradayHold40).signal = SignalDir.BUY :=
  (combineSignals_direction_rule dailyBuy80 intradayHold40).2.1 rfl (by decide)

/-- C9: the generator's strength is always one of exactly 40, 80, 90, 100. -/
theorem generateSignal_strength_quantized (data : List Bar) (tf : String) :
    (generateSignal data tf).strength = 40 ∨ (generateSignal data tf).strength = 80 ∨
    (generateSignal data tf).strength = 90 ∨ (generateSignal data tf).strength = 100 :=
  generateSignal_strength_cases data tf

/-- C4: the generator's strength is in [0,100] and its direction is one of the
three enum values; the Combiner's strength stays in [0,100] whenever both
input strengths are in [0,100]. -/
theorem signal_invariants (data : List Bar) (tf : String) (d i : TradingSignal) :
    (0 ≤ (generateSignal data tf).strength ∧ (generateSignal data tf).strength ≤ 100) ∧
    ((generateSignal data tf).signal = SignalDir.BUY ∨
      (generateSignal data tf).signal = SignalDir.SELL ∨
      (generateSignal data tf).signal = SignalDir.HOLD) ∧
    (0 ≤ d.strength → d.strength ≤ 100 → 0 ≤ i.strength → i.strength ≤ 100 →
      0 ≤ (combineSignals d i).strength ∧ (combineSignals d i).strength ≤ 100) := by
  refine ⟨?_, ?_, ?_⟩
  · rcases generateSignal_strength_cases data tf with h | h | h | h <;> rw [h] <;> norm_num
  · cases h : (generateSignal data tf).signal <;> simp
  · intro hd0 hd1 hi0 hi1
    have hs : (combineSignals d i).strength =
        (jsRound (d.strength * (6 / 10) + i.strength * (4 / 10)) : ℚ) := rfl
    rw [hs, jsRound]
    constructor
    · have h0 : (0 : Int) ≤ ⌊d.strength * (6 / 10) + i.strength * (4 / 10) + 1 / 2⌋ := by
        apply Int.le_floor.mpr
        push_cast
        linarith
      exact_mod_cast h0
    · have hup : d.strength * (6 / 10) + i.strength * (4 / 10) + 1 / 2 ≤ (100 : ℚ) + 1 / 2 := by
        linarith
      have h1 := Int.floor_mono hup
      have h2 : ⌊(100 : ℚ) + 1 / 2⌋ = 100 := by norm_num
      rw [h2] at h1
      exact_mod_cast h1

/-- Witness for C4: concrete strengths 80 and 40 keep the combined strength in
[0,100]. -/
theorem signal_invariants_witness :
    0 ≤ (combineSignals dailyBuy80 intradayHold40).strength ∧
    (combineSignals dailyBuy80 intradayHold40).strength ≤ 100 :=
  (signal_invariants [] "daily" dailyBuy80 intradayHold40).2.2
    (by norm_num [dailyBuy80]) (by norm_num [dailyBuy80])
    (by norm_num [intradayHold40]) (by norm_num [intradayHold40])

/-- C1 counterexample: on [100, 200, 300] with period 2 the code returns 50,
using prices[len - period] = 200 as the past close; the claimed past close,
2 positions before the latest, is 100, which would give 200. -/
theorem calculateMomentum_offByOne_counterexample :
    calculateMomentum [100, 200, 300] 2 = 50 ∧
    ((300 - 100) / 100) * 100 = (200 : ℚ) ∧
    calculateMomentum [100, 200, 300] 2 ≠ ((300 - 100) / 100) * 100 := by
  norm_num [calculateMomentum]

/-- C1 (amended): with at least `period` points the momentum is the percentage
change between the latest close and the close `period - 1` positions before the
latest (index `len - 1 - (period - 1)`, the period-th most recent close); with
fewer than `period` points it is 0. -/
theorem calculateMomentum_spec (prices : List ℚ) (period : Nat) :
    (prices.length < period → calculateMomentum prices period = 0) ∧
    (1 ≤ period → period ≤ prices.length →
      calculateMomentum prices period =
        ((prices.getD (prices.length - 1) 0 -
            prices.getD (prices.length - 1 - (period - 1)) 0) /
          prices.getD (prices.length - 1 - (period - 1)) 0) * 100) := by
  constructor
  · intro h
    simp [calculateMomentum, h]
  · intro h1 h2
    have hidx : prices.length - 1 - (period - 1) = prices.length - period := by omega
    rw [hidx, calculateMomentum, if_neg (by omega)]

/-- Witness for C1 (amended): the formula evaluated at [100, 200, 300] with
period 2 gives the code's value 50. -/
theorem calculateMomentum_spec_witness :
    calculateMomentum [100, 200, 300] 2 = 50 := by
  have h := (calculateMomentum_spec [100, 200, 300] 2).2 (by norm_num) (by norm_num)
  norm_num at h
  exact h

/-- A bar with an explicit timestamp and constant prices, for the
non-monotonic test input. -/
def mkBarAt (t : Int) (c : ℚ) : Bar :=
  { timestamp := t, openPrice := c, high := c, low := c, close := c, volume := 0 }

/-- C3 counterexample: the two-bar series with decreasing timestamps 2, 1 is
not rejected anywhere; the generator completes silently with the
insufficient-history fallback values. -/
theorem nonMonotonic_completes_with_fallback :
    generateSignal [mkBarAt 2 100, mkBarAt 1 100] "daily" =
      { timeframe := "daily", signal := SignalDir.HOLD, strength := 40,
        indicators := { sma20 := 100, sma50 := 100, rsi := 50, momentum := 0 } } := by
  norm_num [generateSignal, mkBarAt, calculateSMA, calculateRSI, calculateMomentum,
    jsGT, jsLT, round2, jsRound]

/-- C3 (amended): no input is rejected at the Indicator Library boundary: the
generator is total and ignores timestamps entirely, so any non-monotonic
series is processed exactly like its re-timestamped monotonic version, and
malformed series complete silently with the fallback values. -/
theorem generateSignal_ignores_timestamps (data : List Bar) (tf : String) (t : Int) :
    generateSignal (data.map (fun b => { b with timestamp := t })) tf =
      generateSignal data tf := by
  have h : (data.map (fun b => { b with timestamp := t })).map Bar.close =
      data.map Bar.close := by
    simp [List.map_map, Function.comp]
  simp only [generateSignal, h]

/-- C5: with a latest close P, the generator classifies BUY exactly when
P > sma20, sma20 > sma50, rsi < 70 and momentum > 0; the BUY strength is
min(100, (90 if rsi < 30 else 70) + (20 if momentum > 5 else 10)); and the BUY
and SELL conditions are mutually exclusive (opposite strict inequalities of P
versus sma20). -/
theorem generateSignal_buy_rule (data : List Bar) (tf : String)
    (P sma20 sma50 rsi momentum : ℚ)
    (hP : (data.map Bar.close).getLast? = some P)
    (h20 : sma20 = calculateSMA (data.map Bar.close) 20)
    (h50 : sma50 = calculateSMA (data.map Bar.close) 50)
    (hr : rsi = calculateRSI (data.map Bar.close) 14)
    (hm : momentum = calculateMomentum (data.map Bar.close) 10) :
    ((generateSignal data tf).signal = SignalDir.BUY ↔
      (P > sma20 ∧ sma20 > sma50 ∧ rsi < 70 ∧ momentum > 0)) ∧
    ((generateSignal data tf).signal = SignalDir.BUY →
      (generateSignal data tf).strength =
        min 100 ((if rsi < 30 then (90 : ℚ) else 70) + (if momentum > 5 then (20 : ℚ) else 10))) ∧
    ¬((P > sma20 ∧ sma20 > sma50 ∧ rsi < 70 ∧ momentum > 0) ∧
      (P < sma20 ∧ sma20 < sma50 ∧ rsi > 30 ∧ momentum < 0)) := by
  subst h20 h50 hr hm
  have hexcl : ¬((P > calculateSMA (data.map Bar.close) 20 ∧
        calculateSMA (data.map Bar.close) 20 > calculateSMA (data.map Bar.close) 50 ∧
        calculateRSI (data.map Bar.close) 14 < 70 ∧
        calculateMomentum (data.map Bar.close) 10 > 0) ∧
      (P < calculateSMA (data.map Bar.close) 20 ∧
        calculateSMA (data.map Bar.close) 20 < calculateSMA (data.map Bar.close) 50 ∧
        calculateRSI (data.map Bar.close) 14 > 30 ∧
        calculateMomentum (data.map Bar.close) 10 < 0)) := by
    rintro ⟨⟨h1, -, -, -⟩, ⟨h5, -, -, -⟩⟩
    exact lt_asymm h5 h1
  refine ⟨?_, ?_, hexcl⟩
  · by_cases hb : (P > calculateSMA (data.map Bar.close) 20 ∧
        calculateSMA (data.map Bar.close) 20 > calculateSMA (data.map Bar.close) 50 ∧
        calculateRSI (data.map Bar.close) 14 < 70 ∧
        calculateMomentum (data.map Bar.close) 10 > 0)
    · obtain ⟨h1, h2, h3, h4⟩ := hb
      simp [generateSignal, hP, jsGT, jsLT, h1, h2, h3, h4]
    · simp only [generateSignal, hP, jsGT, jsLT, Bool.and_eq_true, decide_eq_true_eq,
        and_assoc]
      rw [if_neg hb]
      split_ifs <;> simp [hb]
  · intro hsig
    by_cases hb : (P > calculateSMA (data.map Bar.close) 20 ∧
        calculateSMA (data.map Bar.close) 20 > calculateSMA (data.map Bar.close) 50 ∧
        calculateRSI (data.map Bar.close) 14 < 70 ∧
        calculateMomentum (data.map Bar.close) 10 > 0)
    · obtain ⟨h1, h2, h3, h4⟩ := hb
      simp [generateSignal, hP, jsGT, jsLT, h1, h2, h3, h4]
    · exfalso
      apply hb
      revert hsig
      simp only [generateSignal, hP, jsGT, jsLT, Bool.and_eq_true, decide_eq_true_eq,
        and_assoc]
      rw [if_neg hb]
      split_ifs <;> simp [hb]

/-- Witness for C5: the rule instantiated on the one-bar series with close 100
(there the BUY condition fails because P = sma20 = 100). -/
theorem generateSignal_buy_rule_witness :
    (generateSignal [mkBar 100] "daily").signal = SignalDir.BUY ↔
      ((100 : ℚ) > calculateSMA [100] 20 ∧
        calculateSMA [100] 20 > calculateSMA [100] 50 ∧
        calculateRSI [100] 14 < 70 ∧ calculateMomentum [100] 10 > 0) :=
  (generateSignal_buy_rule [mkBar 100] "daily" 100 (calculateSMA [100] 20)
    (calculateSMA [100] 50) (calculateRSI [100] 14) (calculateMomentum [100] 10)
    (by simp [mkBar]) rfl rfl rfl rfl).1

/-- SMA of a constant series of length at least `period` is that constant. -/
lemma calculateSMA_replicate (n period : Nat) (c : ℚ) (h : period ≤ n) (hp : 0 < period) :
    calculateSMA (List.replicate n c) period = c := by
  have hpq : (period : ℚ) ≠ 0 := Nat.cast_ne_zero.mpr (by omega)
  rw [calculateSMA, if_neg (by simp; omega)]
  simp only [List.length_replicate, List.drop_replicate, foldl_add_replicate]
  have hnn : n - (n - period) = period := by omega
  rw [hnn]
  field_simp

/-- RSI of a flat series with enough history hits the avgLoss = 0 branch and
returns 100, not the neutral 50. -/
lemma calculateRSI_replicate_flat (n : Nat) (c : ℚ) (h : 15 ≤ n) :
    calculateRSI (List.replicate n c) 14 = 100 := by
  rw [calculateRSI, if_neg (by simp; omega)]
  have htail : (List.replicate n c).tail = List.replicate (n - 1) c := by
    simp
  have hzip : (List.replicate n c).zip (List.replicate (n - 1) c) =
      List.replicate (n - 1) (c, c) := by
    rw [List.zip_replicate]
    congr 1
    omega
  simp only [htail, hzip, List.map_replicate, sub_self, List.length_replicate,
    List.drop_replicate, foldl_add_replicate]
  norm_num

/-- Momentum of a constant series with enough history is 0. -/
lemma calculateMomentum_replicate (n : Nat) (c : ℚ) (h : 10 ≤ n) :
    calculateMomentum (List.replicate n c) 10 = 0 := by
  rw [calculateMomentum, if_neg (by simp; omega)]
  have h1 : (List.replicate n c).getD (n - 1) 0 = c := by
    rw [List.getD_eq_getElem?_getD, List.getElem?_replicate, if_pos (by omega)]
    rfl
  have h2 : (List.replicate n c).getD (n - 10) 0 = c := by
    rw [List.getD_eq_getElem?_getD, List.getElem?_replicate, if_pos (by omega)]
    rfl
  rw [List.length_replicate, h1, h2]
  simp

/-- C8: on 50 constant closes of 100.0 the generator yields sma20 = sma50 =
100, rsi = 100 (the zero-loss branch fires, not the neutral 50), momentum = 0,
and the result is HOLD with strength 40. -/
theorem flat_series_scenario :
    generateSignal (List.replicate 50 (mkBar 100)) "daily" =
      { timeframe := "daily", signal := SignalDir.HOLD, strength := 40,
        indicators := { sma20 := 100, sma50 := 100, rsi := 100, momentum := 0 } } := by
  have hc : (List.replicate 50 (mkBar 100)).map Bar.close = List.replicate 50 (100 : ℚ) := by
    simp [mkBar]
  have hlast : (List.replicate 50 (100 : ℚ)).getLast? = some 100 := by
    rw [List.getLast?_eq_getElem?]
    simp
  have h20 : calculateSMA (List.replicate 50 (100 : ℚ)) 20 = 100 :=
    calculateSMA_replicate 50 20 100 (by norm_num) (by norm_num)
  have h50 : calculateSMA (List.replicate 50 (100 : ℚ)) 50 = 100 :=
    calculateSMA_replicate 50 50 100 (by norm_num) (by norm_num)
  have hr : calculateRSI (List.replicate 50 (100 : ℚ)) 14 = 100 :=
    calculateRSI_replicate_flat 50 100 (by norm_num)
  have hm : calculateMomentum (List.replicate 50 (100 : ℚ)) 10 = 0 :=
    calculateMomentum_replicate 50 100 (by norm_num)
  simp only [generateSignal, hc, hlast, h20, h50, hr, hm, jsGT, jsLT]
  norm_num [round2, jsRound]

/-- Combining two BUY signals of strength 80 gives BUY with strength 80. -/
lemma combine_buy80 : combineSignals dailyBuy80 intradayBuy80 =
    { timeframe := "combined", signal := SignalDir.BUY, strength := 80,
      indicators := { sma20 := 0, sma50 := 0, rsi := 0, momentum := 0 } } := by
  simp only [combineSignals, dailyBuy80, intradayBuy80]
  norm_num [jsRound]

/-- The strength 80 prints as "80" in the template literal. -/
lemma qString_80 : qString (80 : ℚ) = "80" := by
  simp only [qString, Rat.den_ofNat, Rat.num_ofNat, if_pos]
  decide

/-- The full recommendation text at combined BUY strength 80: the "Strong "
head is outside the ternary, so the message reads "Strong Moderate BUY". -/
lemma fmt_eval : formatRecommendation dailyBuy80 intradayBuy80
    (combineSignals dailyBuy80 intradayBuy80) =
    "Strong Moderate BUY signal. Daily trend is BUY with 80% confidence. 15-min trend shows BUY with 80% confidence." := by
  rw [combine_buy80, formatRecommendation]
  simp only [dailyBuy80, intradayBuy80, dirString]
  norm_num [qString_80]
  decide

/-- C2: at combined = BUY with strength 80 (not above 80) the formatted
recommendation begins "Strong Moderate BUY", contradicting the specified
"Moderate BUY" opening: the template's "Strong " sits outside the ternary. -/
theorem recommendation_moderate_buy_wording :
    (combineSignals dailyBuy80 intradayBuy80).signal = SignalDir.BUY ∧
    (combineSignals dailyBuy80 intradayBuy80).strength = 80 ∧
    formatRecommendation dailyBuy80 intradayBuy80 (combineSignals dailyBuy80 intradayBuy80) =
      "Strong Moderate BUY signal. Daily trend is BUY with 80% confidence. 15-min trend shows BUY with 80% confidence." ∧
    (formatRecommendation dailyBuy80 intradayBuy80
        (combineSignals dailyBuy80 intradayBuy80)).data.take 12 ≠ "Moderate BUY".data := by
  refine ⟨by rw [combine_buy80], by rw [combine_buy80], fmt_eval, ?_⟩
  rw [fmt_eval]
  decide
